import Mathlib

/-!
Verification of the background script of the Bing Results Scraper extension
(`src/tools/Bing Results Scraper/background.js`), as a shallow embedding.

The script's host environment (the browser's fetch machinery, `Date.now`,
`new URL`, the extension messaging system) is abstracted: a fetch attempt is
summarised by a `FetchOutcome` (either the settled response or the thrown
error), the clock is an explicit `now : Int` parameter, and the URL parser is
a parameter `parseHostname : String → Option String` standing for
`new URL(url).hostname` (returning `none` when the constructor throws).
The script's own logic is translated line by line.
-/

/-- JS `String.prototype.includes` on lists of characters: does the first
list contain the second as a contiguous run? -/
def listStartsWith : List Char → List Char → Bool
  | _, [] => true
  | [], _ :: _ => false
  | a :: as, b :: bs => a == b && listStartsWith as bs

/-- Helper for `jsIncludes`: scan every suffix. -/
def listHasRun : List Char → List Char → Bool
  | [], sub => sub.isEmpty
  | a :: as, sub => listStartsWith (a :: as) sub || listHasRun as sub

/-- JS `s.includes(sub)` (substring containment) on Lean strings. -/
def jsIncludes (s sub : String) : Bool :=
  listHasRun s.toList sub.toList

/-- `const CONTENT_TIMEOUT = 15000` (background.js line 6). -/
def CONTENT_TIMEOUT : Int := 15000

/-- `const RATE_LIMIT_MS = 1000` (background.js line 7). -/
def RATE_LIMIT_MS : Int := 1000

/-- A thrown JS error, as the `catch` clause observes it: a `name` and a
`message`. -/
structure JSError where
  name : String
  message : String
deriving DecidableEq, Repr

/-- The settled HTTP response as `fetchUrlContent` observes it: final status
and status text, the `content-type` header (`none` when
`response.headers.get('content-type')` returns null), and the outcome of
`response.text()` (which can itself reject). -/
structure Response where
  status : Nat
  statusText : String
  contentType : Option String
  text : Except JSError String
deriving Repr

/-- `response.ok`: final status in the 200..299 success range. -/
def Response.ok (r : Response) : Bool :=
  200 ≤ r.status && r.status ≤ 299

/-- What the awaited `fetch(url, ...)` call did: settled with a response, or
threw (network failure, malformed URL, or the timeout's `AbortError`). -/
inductive FetchOutcome where
  | response (r : Response)
  | thrown (e : JSError)
deriving Repr

/-- The `{content, error}` object `fetchUrlContent` resolves with. -/
structure FetchResult where
  content : String
  error : Option String
deriving DecidableEq, Repr

/-- Result of one run of `fetchUrlContent`, together with whether the body
was read (`await response.text()` was reached). -/
structure FetchStep where
  result : FetchResult
  bodyRead : Bool
deriving Repr

/-- The `catch (error)` clause of `fetchUrlContent` (background.js lines
71-89): rewrites the message for an `AbortError`, a message containing
`Failed to fetch`, or a message containing `TypeError`, and otherwise
passes the message through; always returns empty content. -/
def catchClause (e : JSError) : FetchResult :=
  { content := "",
    error := some (
      if e.name = "AbortError" then "Request timeout"
      else if jsIncludes e.message "Failed to fetch" then "Network error or CORS blocked"
      else if jsIncludes e.message "TypeError" then "Invalid URL or network error"
      else e.message) }

/-- `fetchUrlContent` (background.js lines 22-90), as a function of the
outcome of the underlying fetch: checks `response.ok`, then gates on the
declared content type (`headers.get('content-type') || ''` must contain
`text/html`), then reads the body; every throw lands in `catchClause`. -/
def fetchUrlContent : FetchOutcome → FetchStep
  | .thrown e => { result := catchClause e, bodyRead := false }
  | .response r =>
    if !r.ok then
      { result := { content := "",
                    error := some ("HTTP " ++ toString r.status ++ ": " ++ r.statusText) },
        bodyRead := false }
    else
      let contentType := r.contentType.getD ""
      if !(jsIncludes contentType "text/html") then
        { result := { content := "",
                      error := some ("Unsupported content type: " ++ contentType) },
          bodyRead := false }
      else
        match r.text with
        | .ok html => { result := { content := html, error := none }, bodyRead := true }
        | .error e => { result := catchClause e, bodyRead := true }

/-- The in-memory rate-limit map `urlFetchHistory`: hostname to last-fetch
timestamp, insertion-ordered with unique keys, as a JS `Map`. -/
abbrev FetchHistory := List (String × Int)

/-- `urlFetchHistory.get(domain)`: `none` models `undefined`. -/
def lookupHist : FetchHistory → String → Option Int
  | [], _ => none
  | (d, t) :: rest, key => if d = key then some t else lookupHist rest key

/-- `urlFetchHistory.set(domain, now)`: overwrite in place, or append. -/
def setHist : FetchHistory → String → Int → FetchHistory
  | [], key, v => [(key, v)]
  | (d, t) :: rest, key, v =>
    if d = key then (key, v) :: rest else (d, t) :: setHist rest key v

/-- `canFetchUrl` (background.js lines 183-198). `parseHostname` stands for
`new URL(url).hostname`, `none` meaning the constructor threw (the `catch`
returns true and keeps no record). The `lastFetch = 0` disjunct is the JS
falsiness test `!lastFetch` on a present entry. Returns the boolean result
and the map after the call. -/
def canFetchUrl (parseHostname : String → Option String) (hist : FetchHistory)
    (now : Int) (url : String) : Bool × FetchHistory :=
  match parseHostname url with
  | none => (true, hist)
  | some domain =>
    match lookupHist hist domain with
    | none => (true, setHist hist domain now)
    | some lastFetch =>
      if lastFetch = 0 ∨ RATE_LIMIT_MS ≤ now - lastFetch then
        (true, setHist hist domain now)
      else
        (false, hist)

/-- One run of the cleanup sweep (background.js lines 201-210): delete every
entry whose timestamp is older than `now - 60*60*1000`. -/
def sweepHist (hist : FetchHistory) (now : Int) : FetchHistory :=
  hist.filter (fun p => !(decide (p.2 < now - 60 * 60 * 1000)))

/-- The `timeout` field of an inbound message, as a JS value: it may be
absent (`undefined`), null, `NaN`, or a number. -/
inductive JSNum where
  | undef
  | null
  | nan
  | num (n : Int)
deriving DecidableEq, Repr

/-- JS truthiness of a `JSNum`: only a nonzero number is truthy. -/
def JSNum.truthy : JSNum → Bool
  | .num n => !(n == 0)
  | _ => false

/-- `message.timeout || CONTENT_TIMEOUT` (background.js line 100): the field
when truthy, the default otherwise. -/
def jsOrTimeout : JSNum → Int → Int
  | .num n, d => if n == 0 then d else n
  | .undef, d => d
  | .null, d => d
  | .nan, d => d

/-- An inbound extension message as the relay reads it. -/
structure InboundMessage where
  action : String
  url : Option String
  timeout : JSNum
deriving Repr

/-- What one invocation of the `onMessage` listener does. `fetchDispatch`
records that `fetchUrlContent` was started with the given url and timeout
and that its `FetchResult` (the carried responder applied to whatever the
network does) will be delivered through `sendResponse`. -/
inductive RelayAction where
  | fetchDispatch (url : Option String) (timeoutMs : Int)
      (responder : FetchOutcome → FetchStep)
  | passThrough
  | pingResponse (status : String)
  | unhandledLogged
  | noAction

/-- The listener's observable behaviour: the action taken and the boolean it
returns to the host (`true` keeps the response channel open). -/
structure HandlerResult where
  act : RelayAction
  keepOpen : Bool

/-- The `chrome.runtime.onMessage` listener (background.js lines 97-141),
threaded with the rate-limit map to record that the listener neither reads
nor mutates it. `senderHasTab` is the truthiness of `sender.tab`. -/
def onMessage (message : InboundMessage) (senderHasTab : Bool)
    (hist : FetchHistory) : HandlerResult × FetchHistory :=
  if message.action = "fetchContent" then
    ({ act := .fetchDispatch message.url (jsOrTimeout message.timeout CONTENT_TIMEOUT)
          fetchUrlContent,
       keepOpen := true }, hist)
  else if senderHasTab &&
      (message.action = "scrapingComplete" || message.action = "scrapingError" ||
       message.action = "progressUpdate" || message.action = "queryError") then
    ({ act := .passThrough, keepOpen := false }, hist)
  else if message.action = "backgroundPing" then
    ({ act := .pingResponse "background active", keepOpen := true }, hist)
  else if message.action ≠ "" then
    ({ act := .unhandledLogged, keepOpen := false }, hist)
  else
    ({ act := .noAction, keepOpen := false }, hist)

/-! ## Helper lemmas on the rate-limit map -/

theorem lookupHist_setHist_self (hist : FetchHistory) (d : String) (v : Int) :
    lookupHist (setHist hist d v) d = some v := by
  induction hist with
  | nil => simp [setHist, lookupHist]
  | cons p rest ih =>
    obtain ⟨k, t⟩ := p
    by_cases hk : k = d
    · simp [setHist, hk, lookupHist]
    · simp [setHist, hk, lookupHist, ih]

theorem mem_of_lookupHist (hist : FetchHistory) (d : String) (t : Int)
    (h : lookupHist hist d = some t) : (d, t) ∈ hist := by
  induction hist with
  | nil => simp [lookupHist] at h
  | cons p rest ih =>
    obtain ⟨k, v⟩ := p
    by_cases hk : k = d
    · subst hk
      simp [lookupHist] at h
      simp [h]
    · simp [lookupHist, hk] at h
      exact List.mem_cons_of_mem _ (ih h)

theorem lookupHist_eq_none_of_not_mem (hist : FetchHistory) (d : String)
    (h : d ∉ hist.map Prod.fst) : lookupHist hist d = none := by
  induction hist with
  | nil => rfl
  | cons p rest ih =>
    obtain ⟨k, v⟩ := p
    have h1 : ¬ k = d := fun hh => h (by simp [hh])
    have h2 : d ∉ rest.map Prod.fst := fun hh => h (by simp [hh])
    simp [lookupHist, h1, ih h2]

/-! ## Claims about the fetch wrapper -/

/-- C1: for every OK response whose declared content type does not contain
the substring `text/html`, `fetchUrlContent` returns empty content and
`Unsupported content type: <type>`, and the body is not read. -/
theorem fetchUrlContent_unsupported_content_type (r : Response)
    (hok : r.ok = true)
    (hct : jsIncludes (r.contentType.getD "") "text/html" = false) :
    fetchUrlContent (.response r) =
      { result := { content := "",
                    error := some ("Unsupported content type: " ++ r.contentType.getD "") },
        bodyRead := false } := by
  simp [fetchUrlContent, hok, hct]

theorem fetchUrlContent_unsupported_content_type_witness :
    Response.ok { status := 200, statusText := "OK", contentType := some "application/json",
                  text := .ok "ignored" } = true
    ∧ fetchUrlContent
        (.response { status := 200, statusText := "OK",
                     contentType := some "application/json", text := .ok "ignored" }) =
        { result := { content := "", error := some "Unsupported content type: application/json" },
          bodyRead := false } :=
  ⟨by decide, fetchUrlContent_unsupported_content_type _ (by decide) (by decide)⟩

/-- C3: the result of `fetchUrlContent` never carries partial content: a
non-null `error` comes with empty `content`, in every branch. -/
theorem fetchResult_error_implies_empty_content (o : FetchOutcome)
    (h : (fetchUrlContent o).result.error ≠ none) :
    (fetchUrlContent o).result.content = "" := by
  cases o with
  | thrown e => rfl
  | response r =>
    by_cases hok : r.ok = true
    · by_cases hct : jsIncludes (r.contentType.getD "") "text/html" = true
      · cases ht : r.text with
        | ok s =>
          exfalso
          exact h (by simp [fetchUrlContent, hok, hct, ht])
        | error e => simp [fetchUrlContent, hok, hct, ht, catchClause]
      · simp [fetchUrlContent, hok, eq_false_of_ne_true hct]
    · simp [fetchUrlContent, eq_false_of_ne_true hok]

theorem fetchResult_error_implies_empty_content_witness :
    (fetchUrlContent (.thrown { name := "Error", message := "boom" })).result.error ≠ none
    ∧ (fetchUrlContent (.thrown { name := "Error", message := "boom" })).result.content = "" :=
  ⟨by decide, fetchResult_error_implies_empty_content _ (by decide)⟩

/-- C4: for every response whose final status is not OK, `fetchUrlContent`
returns empty content and `HTTP <status>: <statusText>`. -/
theorem fetchUrlContent_http_error (r : Response) (h : r.ok = false) :
    fetchUrlContent (.response r) =
      { result := { content := "",
                    error := some ("HTTP " ++ toString r.status ++ ": " ++ r.statusText) },
        bodyRead := false } := by
  simp [fetchUrlContent, h]

theorem fetchUrlContent_http_error_witness :
    Response.ok { status := 404, statusText := "Not Found", contentType := some "text/html",
                  text := .ok "body" } = false
    ∧ fetchUrlContent
        (.response { status := 404, statusText := "Not Found",
                     contentType := some "text/html", text := .ok "body" }) =
        { result := { content := "", error := some "HTTP 404: Not Found" },
          bodyRead := false } :=
  ⟨by decide, fetchUrlContent_http_error _ (by decide)⟩

/-- C5: every throw inside `fetchUrlContent` (the fetch rejecting —
including the timeout's abort — or the body read rejecting) is caught and
mapped to a string in `error` with empty `content`: an `AbortError` yields
`Request timeout`; otherwise a message containing `Failed to fetch` yields
`Network error or CORS blocked`; otherwise a message containing `TypeError`
(the code's test for a malformed-URL / transport type error) yields
`Invalid URL or network error`; any other message passes through unchanged.
Being a total Lean function, the embedding never throws. -/
theorem fetchUrlContent_catch_mapping (e : JSError) :
    (fetchUrlContent (.thrown e)).result.content = ""
    ∧ (∀ r : Response, r.ok = true →
        jsIncludes (r.contentType.getD "") "text/html" = true →
        r.text = .error e →
        fetchUrlContent (.response r) = { result := catchClause e, bodyRead := true })
    ∧ (e.name = "AbortError" →
        (fetchUrlContent (.thrown e)).result.error = some "Request timeout")
    ∧ (e.name ≠ "AbortError" → jsIncludes e.message "Failed to fetch" = true →
        (fetchUrlContent (.thrown e)).result.error = some "Network error or CORS blocked")
    ∧ (e.name ≠ "AbortError" → jsIncludes e.message "Failed to fetch" = false →
        jsIncludes e.message "TypeError" = true →
        (fetchUrlContent (.thrown e)).result.error = some "Invalid URL or network error")
    ∧ (e.name ≠ "AbortError" → jsIncludes e.message "Failed to fetch" = false →
        jsIncludes e.message "TypeError" = false →
        (fetchUrlContent (.thrown e)).result.error = some e.message) := by
  refine ⟨rfl, ?_, ?_, ?_, ?_, ?_⟩
  · intro r hok hct ht
    simp [fetchUrlContent, hok, hct, ht]
  · intro h1
    simp [fetchUrlContent, catchClause, h1]
  · intro h1 h2
    simp [fetchUrlContent, catchClause, h1, h2]
  · intro h1 h2 h3
    simp [fetchUrlContent, catchClause, h1, h2, h3]
  · intro h1 h2 h3
    simp [fetchUrlContent, catchClause, h1, h2, h3]

theorem fetchUrlContent_catch_mapping_witness :
    (fetchUrlContent (.thrown { name := "AbortError", message := "signal is aborted" })).result.error
      = some "Request timeout"
    ∧ (fetchUrlContent (.thrown { name := "AbortError", message := "signal is aborted" })).result.content
      = "" :=
  ⟨(fetchUrlContent_catch_mapping _).2.2.1 rfl, (fetchUrlContent_catch_mapping _).1⟩

/-- C10: an OK response carrying no `content-type` header is treated as
declaring the empty string, which fails the `text/html` test: the result is
empty content and `Unsupported content type: ` with an empty type name, and
the body is not read. -/
theorem fetchUrlContent_missing_content_type (r : Response)
    (hok : r.ok = true) (hct : r.contentType = none) :
    fetchUrlContent (.response r) =
      { result := { content := "", error := some "Unsupported content type: " },
        bodyRead := false } := by
  simp [fetchUrlContent, hok, hct,
    show jsIncludes "" "text/html" = false from by decide,
    show "Unsupported content type: " ++ "" = "Unsupported content type: " from by decide]

theorem fetchUrlContent_missing_content_type_witness :
    Response.ok { status := 200, statusText := "OK", contentType := none,
                  text := .ok "ignored" } = true
    ∧ fetchUrlContent
        (.response { status := 200, statusText := "OK", contentType := none,
                     text := .ok "ignored" }) =
        { result := { content := "", error := some "Unsupported content type: " },
          bodyRead := false } :=
  ⟨by decide, fetchUrlContent_missing_content_type _ (by decide) rfl⟩

/-! ## Claims about the message relay -/

/-- C6: on a `fetchContent` message the listener dispatches
`fetchUrlContent` with `message.url` and `message.timeout || 15000`, delivers
its `FetchResult` through the response callback, and returns `true` (keeps
the channel open for the asynchronous response); and it neither mutates the
rate-limit map nor lets its behaviour depend on it (so `canFetchUrl` is
never consulted on this path). -/
theorem onMessage_fetchContent_dispatch (m : InboundMessage) (tab : Bool)
    (hist : FetchHistory) (h : m.action = "fetchContent") :
    (onMessage m tab hist).1 =
      { act := .fetchDispatch m.url (jsOrTimeout m.timeout CONTENT_TIMEOUT) fetchUrlContent,
        keepOpen := true }
    ∧ (onMessage m tab hist).2 = hist
    ∧ (∀ hist2 : FetchHistory, (onMessage m tab hist2).1 = (onMessage m tab hist).1) := by
  refine ⟨?_, ?_, ?_⟩ <;> simp [onMessage, h]

theorem onMessage_fetchContent_dispatch_witness :
    (onMessage { action := "fetchContent", url := some "https://example.com/", timeout := .undef }
        true [("kept.example", 7)]).1 =
      { act := .fetchDispatch (some "https://example.com/") 15000 fetchUrlContent,
        keepOpen := true }
    ∧ (onMessage { action := "fetchContent", url := some "https://example.com/", timeout := .undef }
        true [("kept.example", 7)]).2 = [("kept.example", 7)] :=
  ⟨(onMessage_fetchContent_dispatch _ true [("kept.example", 7)] rfl).1,
   (onMessage_fetchContent_dispatch _ true [("kept.example", 7)] rfl).2.1⟩

/-- C9: when the `timeout` field of a `fetchContent` message is falsy (`0`,
null, `NaN`, or absent), the `||` selection discards it and the default
15000 ms is passed to `fetchUrlContent`. -/
theorem onMessage_falsy_timeout_default (m : InboundMessage) (tab : Bool)
    (hist : FetchHistory) (h : m.action = "fetchContent")
    (hf : m.timeout.truthy = false) :
    (onMessage m tab hist).1.act =
      RelayAction.fetchDispatch m.url 15000 fetchUrlContent := by
  have hsel : jsOrTimeout m.timeout CONTENT_TIMEOUT = 15000 := by
    cases ht : m.timeout with
    | num n =>
      rw [ht] at hf
      have hn : (n == 0) = true := by simpa [JSNum.truthy] using hf
      simp [jsOrTimeout, hn, CONTENT_TIMEOUT]
    | undef => rfl
    | null => rfl
    | nan => rfl
  simp [onMessage, h, hsel]

theorem onMessage_falsy_timeout_default_witness :
    JSNum.truthy (.num 0) = false
    ∧ (onMessage { action := "fetchContent", url := some "https://example.com/", timeout := .num 0 }
        false []).1.act =
      RelayAction.fetchDispatch (some "https://example.com/") 15000 fetchUrlContent :=
  ⟨by decide, onMessage_falsy_timeout_default _ false [] rfl (by decide)⟩

/-! ## Claims about the rate limiter and the cleanup sweep -/

/-- C2: for a URL with a parseable hostname, `canFetchUrl` returns true and
records `now` (overwriting any prior entry) exactly when there is no prior
record for the hostname or the prior record is at least `RATE_LIMIT_MS`
(1000 ms) old; otherwise it returns false and leaves the map untouched. In
particular, after a passing call at time `now`, a second call for the same
hostname within 1000 ms returns false and one at least 1000 ms later returns
true. Timestamps in the map are previously recorded positive clock values
(`hpos`), which rules out the JS-falsiness reading of a stored 0. -/
theorem canFetchUrl_rate_limit_spec (parseHostname : String → Option String)
    (hist : FetchHistory) (now : Int) (url domain : String)
    (hp : parseHostname url = some domain)
    (hpos : ∀ p ∈ hist, (0 : Int) < p.2) :
    ((lookupHist hist domain = none ∨
        (∃ t, lookupHist hist domain = some t ∧ RATE_LIMIT_MS ≤ now - t)) →
      canFetchUrl parseHostname hist now url = (true, setHist hist domain now))
    ∧ ((∃ t, lookupHist hist domain = some t ∧ now - t < RATE_LIMIT_MS) →
      canFetchUrl parseHostname hist now url = (false, hist))
    ∧ (0 < now →
        ∀ now2 : Int,
          (now2 - now < RATE_LIMIT_MS →
            (canFetchUrl parseHostname (setHist hist domain now) now2 url).1 = false)
          ∧ (RATE_LIMIT_MS ≤ now2 - now →
            (canFetchUrl parseHostname (setHist hist domain now) now2 url).1 = true)) := by
  have h1000 : RATE_LIMIT_MS = 1000 := rfl
  refine ⟨?_, ?_, ?_⟩
  · rintro (hnone | ⟨t, hsome, hle⟩)
    · simp [canFetchUrl, hp, hnone]
    · simp only [canFetchUrl, hp, hsome]
      rw [if_pos (Or.inr hle)]
  · rintro ⟨t, hsome, hlt⟩
    have ht0 : (0 : Int) < t := hpos (domain, t) (mem_of_lookupHist _ _ _ hsome)
    have hcond : ¬ (t = 0 ∨ RATE_LIMIT_MS ≤ now - t) := by
      rw [h1000] at *
      push_neg
      omega
    simp only [canFetchUrl, hp, hsome]
    rw [if_neg hcond]
  · intro hn now2
    have hl : lookupHist (setHist hist domain now) domain = some now :=
      lookupHist_setHist_self _ _ _
    constructor
    · intro h2
      have hcond : ¬ (now = 0 ∨ RATE_LIMIT_MS ≤ now2 - now) := by
        rw [h1000] at *
        push_neg
        omega
      simp only [canFetchUrl, hp, hl]
      rw [if_neg hcond]
    · intro h2
      simp only [canFetchUrl, hp, hl]
      rw [if_pos (Or.inr h2)]

theorem canFetchUrl_rate_limit_spec_witness :
    canFetchUrl (fun _ => some "example.com") [] 5000 "https://example.com/" =
      (true, [("example.com", 5000)])
    ∧ (canFetchUrl (fun _ => some "example.com") [("example.com", 5000)] 5500
        "https://example.com/").1 = false
    ∧ (canFetchUrl (fun _ => some "example.com") [("example.com", 5000)] 6000
        "https://example.com/").1 = true := by
  have h := canFetchUrl_rate_limit_spec (fun _ => some "example.com") [] 5000
    "https://example.com/" "example.com" rfl (by simp)
  refine ⟨h.1 (Or.inl rfl), ?_, ?_⟩
  · exact (h.2.2 (by norm_num) 5500).1 (by norm_num [RATE_LIMIT_MS])
  · exact (h.2.2 (by norm_num) 6000).2 (by norm_num [RATE_LIMIT_MS])

/-- C8: when URL parsing fails, `canFetchUrl` fails open — it returns true
and the rate-limit map is left unchanged. -/
theorem canFetchUrl_fail_open (parseHostname : String → Option String)
    (hist : FetchHistory) (now : Int) (url : String)
    (hp : parseHostname url = none) :
    canFetchUrl parseHostname hist now url = (true, hist) := by
  simp [canFetchUrl, hp]

theorem canFetchUrl_fail_open_witness :
    canFetchUrl (fun _ => none) [("example.com", 5)] 99 "not a url" =
      (true, [("example.com", 5)]) :=
  canFetchUrl_fail_open (fun _ => none) [("example.com", 5)] 99 "not a url" rfl

/-- C7: after one run of the sweep at time `now`, an entry whose timestamp
is older than the 1-hour retention window (`t < now - 3600000`) is absent
from the map, and an entry within the window is retained with its timestamp
unchanged (hostnames are unique, as in a JS `Map`). -/
theorem sweepHist_retention (hist : FetchHistory) (now : Int) (d : String) (t : Int)
    (hnodup : (hist.map Prod.fst).Nodup) (hmem : (d, t) ∈ hist) :
    (t < now - 60 * 60 * 1000 → lookupHist (sweepHist hist now) d = none)
    ∧ (¬ t < now - 60 * 60 * 1000 → lookupHist (sweepHist hist now) d = some t) := by
  induction hist with
  | nil => cases hmem
  | cons p rest ih =>
    obtain ⟨k, v⟩ := p
    simp only [List.map_cons, List.nodup_cons] at hnodup
    obtain ⟨hk, hrest⟩ := hnodup
    rcases List.mem_cons.mp hmem with heq | hmem2
    · injection heq with hd ht
      subst hd
      subst ht
      constructor <;> intro hc
      · have hdrop : d ∉ (List.filter
            (fun p => !(decide (p.2 < now - 60 * 60 * 1000))) rest).map Prod.fst := by
          intro hin
          apply hk
          rcases List.mem_map.mp hin with ⟨q, hq, hfst⟩
          exact hfst ▸ List.mem_map_of_mem _ (List.mem_of_mem_filter hq)
        simp only [sweepHist]
        rw [List.filter_cons_of_neg (by simp; omega)]
        exact lookupHist_eq_none_of_not_mem _ _ hdrop
      · simp only [sweepHist]
        rw [List.filter_cons_of_pos (by simp; omega)]
        simp [lookupHist]
    · have hkd : ¬ k = d :=
        fun hh => hk (hh ▸ List.mem_map_of_mem Prod.fst hmem2)
      have ihr := ih hrest hmem2
      simp only [sweepHist] at ihr ⊢
      constructor <;> intro hc
      · by_cases hv : v < now - 60 * 60 * 1000
        · rw [List.filter_cons_of_neg (by simp; omega)]
          exact ihr.1 hc
        · rw [List.filter_cons_of_pos (by simp; omega)]
          simp only [lookupHist]
          rw [if_neg hkd]
          exact ihr.1 hc
      · by_cases hv : v < now - 60 * 60 * 1000
        · rw [List.filter_cons_of_neg (by simp; omega)]
          exact ihr.2 hc
        · rw [List.filter_cons_of_pos (by simp; omega)]
          simp only [lookupHist]
          rw [if_neg hkd]
          exact ihr.2 hc

theorem sweepHist_retention_witness :
    lookupHist (sweepHist [("old.example", 1000), ("new.example", 4000000000)] 4000000000)
      "old.example" = none
    ∧ lookupHist (sweepHist [("old.example", 1000), ("new.example", 4000000000)] 4000000000)
      "new.example" = some 4000000000 :=
  ⟨(sweepHist_retention [("old.example", 1000), ("new.example", 4000000000)] 4000000000
      "old.example" 1000 (by decide) (by decide)).1 (by norm_num),
   (sweepHist_retention [("old.example", 1000), ("new.example", 4000000000)] 4000000000
      "new.example" 4000000000 (by decide) (by decide)).2 (by norm_num)⟩
